import Mathlib

/-!
Verification of the LinkedIn CTO Finder search pipeline.

This file gives a shallow embedding of the query-construction, pagination and
profile-extraction/scoring pipeline of the repository and proves properties of
the specification against it.

Modelling conventions:
* JavaScript strings are modelled by `String` and processed through `List Char`;
  the ASCII-level behaviour of `toLowerCase`, `trim`, `split(" ")` and the
  regular expressions used by the source is reproduced by explicit executable
  functions over `List Char` (the inputs of interest are ASCII).
* JavaScript numbers are modelled by `ℚ`; every score produced by the source is
  an integer multiple of 1, and all comparisons appearing in the source are
  exact at these values, so `ℚ` is a faithful model of the doubles involved.
* Network calls are modelled by a function from the request cursor to a
  `FetchOutcome`: either a transport/HTTP failure or a parsed response body
  whose item list may be absent.  The bounded `while`/`for` loops of the source
  are embedded structurally; the Google `while` loop carries an explicit bound
  of 10 iterations, which is proved to be non-restrictive
  (`executeSearchAllPagesLoop_fuel_irrelevant`) because the cursor arithmetic of
  the source stops after at most 10 fetches.
-/

namespace CtoFinder

/-- JavaScript regex `\w` character class (ASCII: letters, digits, underscore). -/
def jsWordChar (c : Char) : Bool :=
  c.isAlpha || c.isDigit || c = '_'

/-- Character class `[\w\-]` used by the LinkedIn profile URL pattern. -/
def urlWordChar (c : Char) : Bool :=
  jsWordChar c || c = '-'

/-- JavaScript `toLowerCase()` (ASCII): lower-case every character. -/
def lowerStr (s : String) : String :=
  String.mk (s.toList.map Char.toLower)

/-- `hay.includes(needle)`: substring containment on character lists. -/
def containsSub (hay needle : List Char) : Bool :=
  hay.tails.any (fun t => needle.isPrefixOf t)

/-- `hay.includes(needle)` on strings. -/
def strContains (hay needle : String) : Bool :=
  containsSub hay.toList needle.toList

/-- JavaScript `trim()`: drop whitespace from both ends. -/
def trimChars (cs : List Char) : List Char :=
  ((cs.dropWhile Char.isWhitespace).reverse.dropWhile Char.isWhitespace).reverse

/-- JavaScript `trim()` on strings. -/
def jsTrim (s : String) : String :=
  String.mk (trimChars s.toList)

/-- JavaScript `s.length` (the inputs of interest are ASCII, where UTF-16 code
units and code points coincide). -/
def jsLength (s : String) : Nat :=
  s.toList.length

/-- JavaScript `split(" ")` on a character list: split at every single space. -/
def splitSpace : List Char → List (List Char)
  | [] => [[]]
  | c :: rest =>
    let r := splitSpace rest
    if c = ' ' then [] :: r
    else (c :: r.headD []) :: r.tail

/-! ## Data model (source: `search-services` types) -/

/-- Raw result item of the Google Custom Search backend. -/
structure GoogleSearchItem where
  title : String
  link : String
  snippet : String
deriving DecidableEq, Repr

/-- Response envelope of the Google backend; the `items` field may be absent. -/
structure GoogleSearchResponse where
  items : Option (List GoogleSearchItem)
deriving DecidableEq, Repr

/-- Raw result item of the SerpAPI backend. -/
structure SerpApiSearchItem where
  title : String
  link : String
  snippet : String
deriving DecidableEq, Repr

/-- Response envelope of the SerpAPI backend; `organic_results` may be absent. -/
structure SerpApiResponse where
  organic_results : Option (List SerpApiSearchItem)
deriving DecidableEq, Repr

/-- Candidate profile extracted from one raw result item. -/
structure LinkedInProfile where
  name : String
  title : String
  company : String
  linkedin_url : String
  snippet : String
  confidence_score : ℚ
  location : Option String
  sources : List String
deriving DecidableEq, Repr

/-! ## Query construction (source: `searchCtoProfiles`, both backend classes)

Both backend classes and both entry points (`searchCtoProfiles`,
`searchCtoProfilesLimited`) construct the query identically; the construction
is embedded once. -/

/-- The fixed executive-title list of the query builder. -/
def executiveTitlesQuery : List String :=
  ["CTO", "Chief Technology Officer", "VP Technology", "Head of Technology",
   "Technology Director", "VP Engineering", "Chief Technical Officer",
   "Head of Engineering", "Tech Lead", "Engineering Director", "Technology VP",
   "Chief Technology", "VP of Technology", "VP of Engineering", "Head of Tech"]

/-- The fixed exclusion terms appended at the end of every query. -/
def excludeTerms : List String :=
  ["Intern", "Student", "Former", "Ex-", "Previous", "Consultant"]

/-- Wrap a term in double quotes. -/
def quoteTerm (s : String) : String :=
  "\"" ++ s ++ "\""

/-- Quote each term and join with `" OR "`. -/
def orJoin (ts : List String) : String :=
  String.intercalate " OR " (ts.map quoteTerm)

/-- The sector → keyword-synonym-set object literal, as an association list. -/
def sectorKeywordsTable : List (String × List String) :=
  [("software", ["software", "SaaS", "tech", "technology"]),
   ("fintech", ["fintech", "financial technology", "finance", "banking"]),
   ("healthcare", ["healthcare", "medical", "health tech", "biotech"]),
   ("e-commerce", ["e-commerce", "ecommerce", "retail", "online"]),
   ("AI/ML", ["AI", "ML", "artificial intelligence", "machine learning"]),
   ("cybersecurity", ["cybersecurity", "security", "infosec"]),
   ("blockchain", ["blockchain", "crypto", "web3"]),
   ("IoT", ["IoT", "Internet of Things", "connected devices"]),
   ("gaming", ["gaming", "game", "entertainment"])]

/-- The company-type → keyword-synonym-set object literal. -/
def typeKeywordsTable : List (String × List String) :=
  [("startup", ["startup", "early stage", "seed"]),
   ("SME", ["SME", "medium business", "scale-up"]),
   ("enterprise", ["enterprise", "Fortune", "large company"]),
   ("unicorn", ["unicorn", "billion", "$1B"]),
   ("public", ["public company", "NYSE", "NASDAQ", "publicly traded"])]

/-- The property names inherited from `Object.prototype`: JavaScript bracket
access on an object literal consults the prototype chain, so these keys
return a truthy non-array value (a function, or `Object.prototype` itself for
`__proto__`) instead of `undefined`. -/
def objectPrototypeKeys : List String :=
  ["constructor", "hasOwnProperty", "isPrototypeOf", "propertyIsEnumerable",
   "toLocaleString", "toString", "valueOf", "__proto__", "__defineGetter__",
   "__defineSetter__", "__lookupGetter__", "__lookupSetter__"]

/-- Result of JavaScript bracket access `tbl[key]` on an object literal: an
own property carrying its array value, a truthy non-array value inherited
from `Object.prototype`, or `undefined`. -/
inductive JsLookupResult where
  | ownArray : List String → JsLookupResult
  | inherited : JsLookupResult
  | absent : JsLookupResult
deriving DecidableEq, Repr

/-- JavaScript bracket access on an object literal modelled as an association
list: own properties first, then the `Object.prototype` chain, then
`undefined`. -/
def tableLookup (tbl : List (String × List String)) (key : String) :
    JsLookupResult :=
  match tbl.find? (fun p => p.fst = key) with
  | some p => .ownArray p.snd
  | none => if objectPrototypeKeys.contains key then .inherited else .absent

/-- `sectorKeywords[companySector.toLowerCase()] || [companySector]` followed
by `.map`: an own property yields its synonym set and `undefined` falls back
to the literal sector, but a truthy value inherited from `Object.prototype`
(for example when the lower-cased sector is `constructor` or `__proto__`)
skips the `||` fallback, and the subsequent `sectorTerms.map(...)` throws a
`TypeError`. -/
def sectorTerms (sector : String) : Except String (List String) :=
  match tableLookup sectorKeywordsTable (lowerStr sector) with
  | .ownArray terms => .ok terms
  | .inherited => .error "TypeError: sectorTerms.map is not a function"
  | .absent => .ok [sector]

/-- `typeKeywords[companyType.toLowerCase()] || [companyType]` followed by
`.map`, with the same prototype-chain `TypeError` as `sectorTerms`. -/
def typeTerms (companyType : String) : Except String (List String) :=
  match tableLookup typeKeywordsTable (lowerStr companyType) with
  | .ownArray terms => .ok terms
  | .inherited => .error "TypeError: typeTerms.map is not a function"
  | .absent => .ok [companyType]

/-- The sector terms in the two non-throwing cases (own key, or fallback to
the literal sector); used to state the clause decomposition. -/
def sectorTermsTotal (sector : String) : List String :=
  match tableLookup sectorKeywordsTable (lowerStr sector) with
  | .ownArray terms => terms
  | _ => [sector]

/-- The company-type terms in the two non-throwing cases. -/
def typeTermsTotal (companyType : String) : List String :=
  match tableLookup typeKeywordsTable (lowerStr companyType) with
  | .ownArray terms => terms
  | _ => [companyType]

/-- An optional sector/type value whose lookup does not hit the prototype
chain: the condition under which query construction does not throw. -/
def lookupSafe (tbl : List (String × List String)) : Option String → Bool
  | none => true
  | some s => !(tableLookup tbl (lowerStr s) == JsLookupResult.inherited)

/-- The optional search filters of `searchCtoProfiles`.  A JavaScript argument
that is `undefined` is `none`; the source tests truthiness, so the empty string
behaves like an absent argument and is handled explicitly below. -/
structure SearchFilters where
  region : Option String
  companySector : Option String
  companyType : Option String
  additionalTitles : Option (List String)
deriving Repr

/-- Clause contributed by one optional filter whose rendering cannot throw:
nothing when the argument is absent or empty (falsy), otherwise a single
rendered clause. -/
def optClause (f : String → String) : Option String → List String
  | none => []
  | some s => if s = "" then [] else [f s]

/-- Clause contributed by an optional filter whose term computation can throw
(the sector and type lookups): nothing when absent or empty, otherwise the
quoted disjunction of the computed terms, propagating a thrown `TypeError`. -/
def optClauseE (f : String → Except String (List String)) :
    Option String → Except String (List String)
  | none => .ok []
  | some s =>
    if s = "" then .ok []
    else
      match f s with
      | .ok terms => .ok ["(" ++ orJoin terms ++ ")"]
      | .error e => .error e

/-- The list `queryParts` of `searchCtoProfiles` just before joining.  A
`TypeError` thrown at the sector or type lookup aborts the whole construction
(the source pushes clauses imperatively, but an exception discards all of
them, so only the propagated error is observable). -/
def searchQueryParts (fl : SearchFilters) : Except String (List String) :=
  let titles := executiveTitlesQuery ++ fl.additionalTitles.getD []
  match optClauseE sectorTerms fl.companySector with
  | .error e => .error e
  | .ok sectorPart =>
    match optClauseE typeTerms fl.companyType with
    | .error e => .error e
    | .ok typePart =>
      .ok (["site:linkedin.com/in/", "(" ++ orJoin titles ++ ")"]
        ++ optClause (fun r => quoteTerm r) fl.region
        ++ sectorPart ++ typePart
        ++ excludeTerms.map (fun e => "-" ++ quoteTerm e))

/-- `queryParts.join(" ")`: the complete query string, or the propagated
`TypeError` of a prototype-chain sector/type lookup. -/
def searchCtoProfilesQuery (fl : SearchFilters) : Except String String :=
  match searchQueryParts fl with
  | .error e => .error e
  | .ok parts => .ok (String.intercalate " " parts)

/-- The query-part list in the non-throwing cases: the normal form used to
state the clause decomposition. -/
def searchQueryPartsPure (fl : SearchFilters) : List String :=
  ["site:linkedin.com/in/",
   "(" ++ orJoin (executiveTitlesQuery ++ fl.additionalTitles.getD []) ++ ")"]
  ++ optClause (fun r => quoteTerm r) fl.region
  ++ optClause (fun s => "(" ++ orJoin (sectorTermsTotal s) ++ ")") fl.companySector
  ++ optClause (fun t => "(" ++ orJoin (typeTermsTotal t) ++ ")") fl.companyType
  ++ excludeTerms.map (fun e => "-" ++ quoteTerm e)

/-! Segment functions used to state the clause-ordering/independence property:
each is a function of one filter field only. -/

/-- The query segment contributed by the title disjunction. -/
def titleSegment (additionalTitles : Option (List String)) : String :=
  "(" ++ orJoin (executiveTitlesQuery ++ additionalTitles.getD []) ++ ")"

/-- The query segment contributed by the region filter (empty when unset). -/
def regionSegment : Option String → String
  | none => ""
  | some r => if r = "" then "" else " " ++ quoteTerm r

/-- The query segment contributed by the sector filter (empty when unset). -/
def sectorSegment : Option String → String
  | none => ""
  | some s => if s = "" then "" else " " ++ ("(" ++ orJoin (sectorTermsTotal s) ++ ")")

/-- The query segment contributed by the company-type filter. -/
def typeSegment : Option String → String
  | none => ""
  | some t => if t = "" then "" else " " ++ ("(" ++ orJoin (typeTermsTotal t) ++ ")")

/-- Space-prefixed join of the remaining parts of a query-part list. -/
def joinTail : List String → String
  | [] => ""
  | x :: xs => " " ++ x ++ joinTail xs

/-- The fixed exclusion segment ending every query. -/
def exclusionSegment : String :=
  joinTail (excludeTerms.map (fun e => "-" ++ quoteTerm e))

/-! ## ProfileExtractor: URL gating

The pattern `/https?:\/\/(?:www\.)?linkedin\.com\/in\/[\w\-]+/` is unanchored
and case-sensitive.  At a fixed start position its two optional groups are
deterministic: when `s` follows `http`, declining it requires `://` to start at
`s` (impossible); when `www.` is present, declining it requires `linkedin` to
start at `w` (impossible).  So matching at a position reduces to the
prefix test below, and `test` succeeds iff some suffix position matches. -/

/-- Match the profile URL pattern at the head of the character list. -/
def linkedinMatchAt (cs : List Char) : Bool :=
  if "http".toList.isPrefixOf cs then
    let r1 := cs.drop 4
    let r2 :=
      if "s://".toList.isPrefixOf r1 then some (r1.drop 4)
      else if "://".toList.isPrefixOf r1 then some (r1.drop 3)
      else none
    match r2 with
    | none => false
    | some r3 =>
      let r4 := if "www.".toList.isPrefixOf r3 then r3.drop 4 else r3
      if "linkedin.com/in/".toList.isPrefixOf r4 then
        match r4.drop 16 with
        | c :: _ => urlWordChar c
        | [] => false
      else false
  else false

/-- `linkedinUrlPattern.test(url)`: search every start position. -/
def linkedinUrlTest (url : String) : Bool :=
  url.toList.tails.any linkedinMatchAt

/-! ## ProfileExtractor: field extraction -/

/-- The extractor's fixed lower-cased executive-title list (both variants). -/
def extractorTitles : List String :=
  ["cto", "chief technology officer", "vp technology", "head of technology",
   "technology director", "vp engineering", "chief technical officer",
   "head of engineering", "tech lead", "engineering director", "technology vp"]

/-- `title.match(/^([^-|:]+)/)`: the name is the trimmed longest prefix free of
`-`, `|` and `:`; an empty prefix means no match and yields the empty name. -/
def nameFromTitle (title : String) : String :=
  let pre := title.toList.takeWhile (fun c => !(c = '-' || c = '|' || c = ':'))
  if pre = [] then "" else jsTrim (String.mk pre)

/-- Character class `[^|,\-\n]` of the first two company patterns. -/
def companyCaptureChar (c : Char) : Bool :=
  !(c = '|' || c = ',' || c = '-' || c = '\n')

/-- Find the first position where `mark` is followed by at least one capture
character, and return the greedy capture (`/at ([^|,\-\n]+)/`, `/@ (...)/`). -/
def scanMarkCapture (mark : List Char) : List Char → Option (List Char)
  | [] => none
  | c :: rest =>
    if mark.isPrefixOf (c :: rest) then
      match (c :: rest).drop mark.length with
      | d :: tail =>
        if companyCaptureChar d then some (d :: tail.takeWhile companyCaptureChar)
        else scanMarkCapture mark rest
      | [] => scanMarkCapture mark rest
    else scanMarkCapture mark rest

/-- Backtracking matcher for the third company pattern — word-character runs
separated by whitespace runs, followed by a space and a hyphen — at one start position
(which must begin with a word character): each `\w+` and `\s+` run is forced
maximal by the following atom, and the greedy `*` is explored deepest-first,
so the capture is the longest alternating word/space span followed by `" -"`.
The fuel argument strictly exceeds the length of the scanned list; every
recursive call consumes at least two characters, so fuel never runs out. -/
def wordsDashAux : Nat → List Char → List Char → Option (List Char)
  | 0, _, _ => none
  | fuel + 1, cs, acc =>
    let w := cs.takeWhile jsWordChar
    let r := cs.drop w.length
    let ws := r.takeWhile Char.isWhitespace
    let r2 := r.drop ws.length
    let deeper :=
      match ws, r2 with
      | _ :: _, c :: _ =>
        if jsWordChar c then wordsDashAux fuel r2 (acc ++ w ++ ws) else none
      | _, _ => none
    match deeper with
    | some cap => some cap
    | none =>
      match r with
      | ' ' :: '-' :: _ => some (acc ++ w)
      | _ => none

/-- Leftmost match of the third company pattern over all start positions. -/
def scanWordsDash : List Char → Option (List Char)
  | [] => none
  | c :: rest =>
    if jsWordChar c then
      match wordsDashAux ((c :: rest).length + 1) (c :: rest) [] with
      | some cap => some cap
      | none => scanWordsDash rest
    else scanWordsDash rest

/-- `toTitleCase`: `str.replace(/\w\S*/g, ...)` capitalises the first character
of each token that starts at a word character and lower-cases the rest of the
token; a token extends to the next whitespace. -/
def toTitleCaseGo : Bool → List Char → List Char
  | _, [] => []
  | false, c :: rest =>
    if jsWordChar c then c.toUpper :: toTitleCaseGo true rest
    else c :: toTitleCaseGo false rest
  | true, c :: rest =>
    if c.isWhitespace then c :: toTitleCaseGo false rest
    else c.toLower :: toTitleCaseGo true rest

/-- `toTitleCase` on strings. -/
def toTitleCase (s : String) : String :=
  String.mk (toTitleCaseGo false s.toList)

/-- `extractTitleAndCompany(title, snippet)`: first executive title contained
in the lower-cased concatenation, and the first company pattern capture, both
title-cased.  (The two source variants interleave `trim`/`toTitleCase`
identically up to composition order and agree on the result.) -/
def extractTitleAndCompany (title snippet : String) : String × String :=
  let text := (title ++ " " ++ snippet).toList.map Char.toLower
  let jobTitle := (extractorTitles.find? (fun t => containsSub text t.toList)).getD ""
  let company :=
    match scanMarkCapture "at ".toList text with
    | some cap => cap
    | none =>
      match scanMarkCapture "@ ".toList text with
      | some cap => cap
      | none => (scanWordsDash text).getD []
  (toTitleCase jobTitle, toTitleCase (jsTrim (String.mk company)))

/-! ## ProfileExtractor: location heuristics (variant of `part_004`) -/

/-- Match `/([A-Z][a-z]+,\s*[A-Z]{2,})/` at the head of the list; the full
match includes the maximal runs forced by the following atoms. -/
def cityStateAt : List Char → Option (List Char)
  | [] => none
  | c :: rest =>
    if c.isUpper then
      let low := rest.takeWhile Char.isLower
      if low = [] then none
      else
        match rest.drop low.length with
        | ',' :: r2 =>
          let ws := r2.takeWhile Char.isWhitespace
          let ups := (r2.drop ws.length).takeWhile Char.isUpper
          if 2 ≤ ups.length then some (c :: (low ++ ',' :: (ws ++ ups)))
          else none
        | _ => none
    else none

/-- Match `/([A-Z][a-z]+\s+[A-Z][a-z]+,\s*[A-Z]{2,})/` at the head. -/
def cityNameStateAt : List Char → Option (List Char)
  | [] => none
  | c :: rest =>
    if c.isUpper then
      let low1 := rest.takeWhile Char.isLower
      if low1 = [] then none
      else
        let r1 := rest.drop low1.length
        let ws1 := r1.takeWhile Char.isWhitespace
        if ws1 = [] then none
        else
          match r1.drop ws1.length with
          | d :: r2 =>
            if d.isUpper then
              let low2 := r2.takeWhile Char.isLower
              if low2 = [] then none
              else
                match r2.drop low2.length with
                | ',' :: r3 =>
                  let ws2 := r3.takeWhile Char.isWhitespace
                  let ups := (r3.drop ws2.length).takeWhile Char.isUpper
                  if 2 ≤ ups.length then
                    some (c :: low1 ++ ws1 ++ d :: low2 ++ ',' :: (ws2 ++ ups))
                  else none
                | _ => none
            else none
          | [] => none
    else none

/-- The fixed major-city alternation of the third location pattern. -/
def cityNames : List String :=
  ["San Francisco", "New York", "Los Angeles", "Seattle", "Boston", "Austin",
   "Chicago", "London", "Berlin", "Paris", "Tokyo", "Singapore", "Toronto",
   "Vancouver"]

/-- Case-insensitive prefix test (the city alternation carries the `i` flag). -/
def ciPrefix : List Char → List Char → Bool
  | [], _ => true
  | _ :: _, [] => false
  | p :: ps, c :: cs => (p.toLower = c.toLower) && ciPrefix ps cs

/-- Match the city alternation at the head, returning the matched slice in its
original casing (alternatives are tried in list order). -/
def cityAt (cs : List Char) : Option (List Char) :=
  cityNames.findSome? (fun city =>
    if ciPrefix city.toList cs then some (cs.take city.toList.length) else none)

/-- Leftmost match of a head matcher over all start positions of the list. -/
def scanFor (f : List Char → Option (List Char)) : List Char → Option (List Char)
  | [] => none
  | c :: rest =>
    match f (c :: rest) with
    | some m => some m
    | none => scanFor f rest

/-- `extractLocation(snippet)` of the `part_004` extractor: the three global
patterns are tried in order and the first full match (`matches[0]`) wins. -/
def extractLocation (snippet : String) : Option String :=
  let cs := snippet.toList
  match scanFor cityStateAt cs with
  | some m => some (String.mk m)
  | none =>
    match scanFor cityNameStateAt cs with
    | some m => some (String.mk m)
    | none => (scanFor cityAt cs).map String.mk

/-! ## ProfileExtractor: the two scoring strategies -/

/-- The false-positive markers of the alternate scoring strategy. -/
def falsePositiveMarkers : List String :=
  ["student", "intern", "former", "ex-", "previous"]

namespace Primary

/-- `calculateConfidence` of the `index.ts` extractor: +40 title relevance,
+30/+20 context match (company takes priority), +20 completeness, +10 long
snippet, clamped at 100 from above. -/
def calculateConfidence (jobTitle company searchContext snippet : String) : ℚ :=
  let s1 : ℚ :=
    if extractorTitles.any (fun t => strContains (lowerStr jobTitle) t) then 40 else 0
  let s2 : ℚ :=
    if searchContext ≠ "" ∧ strContains (lowerStr company) (lowerStr searchContext) = true
    then 30
    else if searchContext ≠ "" ∧ strContains (lowerStr snippet) (lowerStr searchContext) = true
    then 20 else 0
  let s3 : ℚ := if jobTitle ≠ "" ∧ company ≠ "" then 20 else 0
  let s4 : ℚ := if 100 < jsLength snippet then 10 else 0
  min (s1 + s2 + s3 + s4) 100

/-- `validateProfile` of the `index.ts` extractor. -/
def validateProfile (p : LinkedInProfile) : Bool :=
  decide (20 ≤ p.confidence_score) && (p.name != "") && (p.linkedin_url != "")
    && decide (2 ≤ jsLength p.name)

end Primary

namespace Alt

/-- Context words of the alternate strategy worth +2 each: words of the
space-split lower-cased context of length above 3 found in the snippet. -/
def contextHits (searchContext snippet : String) : Nat :=
  ((splitSpace (lowerStr searchContext).toList).filter
    (fun w => 3 < w.length && containsSub (lowerStr snippet).toList w)).length

/-- False-positive markers found in the snippet, −20 each. -/
def falsePositiveHits (snippet : String) : Nat :=
  (falsePositiveMarkers.filter
    (fun fp => strContains (lowerStr snippet) fp)).length

/-- `calculateConfidence` of the `part_004` extractor: +30 base title, +40 CTO
match, +20 company, +2 per context word, −20 per false positive, clamped to
[0, 100] by `Math.max(0, Math.min(100, score))`. -/
def calculateConfidence (jobTitle company searchContext snippet : String) : ℚ :=
  let base : ℚ := if jobTitle ≠ "" then 30 else 0
  let cto : ℚ :=
    if strContains (lowerStr jobTitle) "cto" = true
       ∨ strContains (lowerStr jobTitle) "chief technology officer" = true
    then 40 else 0
  let comp : ℚ := if company ≠ "" then 20 else 0
  let ctx : ℚ :=
    if searchContext ≠ "" then 2 * (contextHits searchContext snippet : ℚ) else 0
  let fp : ℚ := 20 * (falsePositiveHits snippet : ℚ)
  max 0 (min 100 (base + cto + comp + ctx - fp))

/-- `validateProfile` of the `part_004` extractor: non-empty name, non-empty
URL and a confidence score strictly above 10. -/
def validateProfile (p : LinkedInProfile) : Bool :=
  decide (0 < jsLength p.name) && decide (0 < jsLength p.linkedin_url)
    && decide ((10 : ℚ) < p.confidence_score)

/-- `parseSearchItem` of the `part_004` extractor: reject items whose link does
not pass the URL pattern, otherwise assemble the candidate profile. -/
def parseSearchItem (item : GoogleSearchItem) (searchContext : String) :
    Option LinkedInProfile :=
  if linkedinUrlTest item.link then
    let tc := extractTitleAndCompany item.title item.snippet
    some { name := nameFromTitle item.title
           title := tc.fst
           company := tc.snd
           linkedin_url := item.link
           snippet := item.snippet
           confidence_score :=
             calculateConfidence tc.fst tc.snd searchContext item.snippet
           location := extractLocation item.snippet
           sources := ["Google Custom Search"] }
  else none

/-- One loop step of `extractProfiles`: parse, then keep only valid profiles. -/
def extractStep (searchContext : String) (item : GoogleSearchItem) :
    Option LinkedInProfile :=
  match parseSearchItem item searchContext with
  | some p => if validateProfile p then some p else none
  | none => none

/-- `extractProfiles` of the `part_004` extractor. -/
def extractProfiles (resp : GoogleSearchResponse) (searchContext : String) :
    List LinkedInProfile :=
  match resp.items with
  | none => []
  | some items => items.filterMap (extractStep searchContext)

/-- Field-by-field conversion of a SerpAPI item done by
`extractProfilesFromSerpApi`. -/
def convertItem (item : SerpApiSearchItem) : GoogleSearchItem :=
  { title := item.title, link := item.link, snippet := item.snippet }

/-- `extractProfilesFromSerpApi` of the `part_004` extractor: convert each item
and run the same per-item parser and validity filter. -/
def extractProfilesFromSerpApi (resp : SerpApiResponse) (searchContext : String) :
    List LinkedInProfile :=
  match resp.organic_results with
  | none => []
  | some items => items.filterMap (fun item => extractStep searchContext (convertItem item))

end Alt

/-! ## PageFetcher

A network page fetch is modelled by the outcome the source observes: either a
failure (non-success HTTP status or a thrown transport/JSON error — the source
treats both identically in every fetch loop) or a parsed response whose item
list may be absent.  A backend is a function from the request cursor (the
`start` parameter for Google, the page number for SerpAPI) to an outcome.
The inter-request delays of the source do not affect the returned data and are
not modelled.  Each fetcher returns the response envelope it builds, paired
with the number of backend fetches it performed. -/

/-- Outcome of one page fetch as observed by the source. -/
inductive FetchOutcome (α : Type) where
  | fail : FetchOutcome α
  | ok : Option (List α) → FetchOutcome α
deriving DecidableEq, Repr

/-- Number of items carried by a fetch outcome. -/
def FetchOutcome.pageLen {α : Type} : FetchOutcome α → Nat
  | .fail => 0
  | .ok none => 0
  | .ok (some l) => l.length

namespace GoogleService

/-- The `while (hasMoreResults)` loop of `executeSearchAllPages`
(`LinkedInProfileSearchService`): fetch at cursor `s`, stop on failure, absent
or empty `items`, a short page, or a cursor that would pass 100; otherwise
advance the cursor by 10.  The loop is embedded structurally on an iteration
bound; `executeSearchAllPagesLoop_fuel_irrelevant` below proves the bound of 10
used by `executeSearchAllPages` is never the reason the loop stops, so this is
the exact semantics of the source's unbounded `while`. -/
def executeSearchAllPagesLoop (backend : Nat → FetchOutcome GoogleSearchItem) :
    Nat → Nat → List GoogleSearchItem → Nat → List GoogleSearchItem × Nat
  | 0, _, acc, n => (acc, n)
  | fuel + 1, s, acc, n =>
    match backend s with
    | .fail => (acc, n + 1)
    | .ok none => (acc, n + 1)
    | .ok (some items) =>
      if items.length = 0 then (acc, n + 1)
      else if items.length < 10 then (acc ++ items, n + 1)
      else if 100 < s + 10 then (acc ++ items, n + 1)
      else executeSearchAllPagesLoop backend fuel (s + 10) (acc ++ items) (n + 1)

/-- `executeSearchAllPages`: run the pagination loop from `startIndex = 1` and
wrap the accumulated items in a response (`{ items: allItems }`). -/
def executeSearchAllPages (backend : Nat → FetchOutcome GoogleSearchItem) :
    GoogleSearchResponse × Nat :=
  let r := executeSearchAllPagesLoop backend 10 1 [] 0
  ({ items := some r.1 }, r.2)

/-- `executeSearch` (bounded mode): a single fetch; a non-success response or a
transport error is re-thrown as `Search API request failed`, a success returns
the parsed body. -/
def executeSearch (outcome : FetchOutcome GoogleSearchItem) :
    Except String GoogleSearchResponse :=
  match outcome with
  | .fail => .error "Search API request failed"
  | .ok items => .ok { items := items }

end GoogleService

namespace SerpApiService

/-- The `for (let page = 0; page < 10; page++)` loop of
`executeSearchAllPages` (`SerpApiSearchService`): stop on failure or on an
absent or empty `organic_results`; a short non-empty page does NOT stop the
loop.  The first argument counts the remaining iterations of the bounded
`for` loop (10 at entry), the second is the page number. -/
def executeSearchAllPagesLoop (backend : Nat → FetchOutcome SerpApiSearchItem) :
    Nat → Nat → List SerpApiSearchItem → Nat → List SerpApiSearchItem × Nat
  | 0, _, acc, n => (acc, n)
  | remaining + 1, page, acc, n =>
    match backend page with
    | .fail => (acc, n + 1)
    | .ok none => (acc, n + 1)
    | .ok (some results) =>
      if results.length = 0 then (acc, n + 1)
      else executeSearchAllPagesLoop backend remaining (page + 1) (acc ++ results) (n + 1)

/-- `executeSearchAllPages`: run the 10-page loop and wrap the accumulated
items (`{ organic_results: allResults }`). -/
def executeSearchAllPages (backend : Nat → FetchOutcome SerpApiSearchItem) :
    SerpApiResponse × Nat :=
  let r := executeSearchAllPagesLoop backend 10 0 [] 0
  ({ organic_results := some r.1 }, r.2)

/-- `executeSearch` (bounded mode): a single fetch; the `catch` swallows both
non-success responses and transport errors and returns
`{ organic_results: [] }`, so this function never throws. -/
def executeSearch (outcome : FetchOutcome SerpApiSearchItem) : SerpApiResponse :=
  match outcome with
  | .fail => { organic_results := some [] }
  | .ok results => { organic_results := results }

end SerpApiService

/-! ## Concrete backends used by the counterexamples and witnesses -/

/-- A distinguishable Google item, numbered by its overall result position. -/
def gItem (k : Nat) : GoogleSearchItem :=
  { title := toString k, link := "", snippet := "" }

/-- A distinguishable SerpAPI item, numbered by its overall result position. -/
def sItem (k : Nat) : SerpApiSearchItem :=
  { title := toString k, link := "", snippet := "" }

/-- A Google page of `n` items starting at overall position `a`. -/
def gPage (a n : Nat) : List GoogleSearchItem :=
  (List.range' a n).map gItem

/-- A SerpAPI page of `n` items starting at overall position `a`. -/
def sPage (a n : Nat) : List SerpApiSearchItem :=
  (List.range' a n).map sItem

/-- Google backend yielding successive pages of sizes 10, 10, 10, 7 and
nothing afterwards, keyed by the `start` cursor values the loop requests. -/
def demoGoogleBackend : Nat → FetchOutcome GoogleSearchItem := fun s =>
  if s = 1 then .ok (some (gPage 0 10))
  else if s = 11 then .ok (some (gPage 10 10))
  else if s = 21 then .ok (some (gPage 20 10))
  else if s = 31 then .ok (some (gPage 30 7))
  else .ok (some [])

/-- SerpAPI backend yielding successive pages of sizes 10, 10, 10, 7 and
nothing afterwards, keyed by page number. -/
def demoSerpBackend : Nat → FetchOutcome SerpApiSearchItem := fun page =>
  if page = 0 then .ok (some (sPage 0 10))
  else if page = 1 then .ok (some (sPage 10 10))
  else if page = 2 then .ok (some (sPage 20 10))
  else if page = 3 then .ok (some (sPage 30 7))
  else .ok (some [])

/-- A misbehaving Google backend whose every page carries 11 items. -/
def elevenItemBackend : Nat → FetchOutcome GoogleSearchItem := fun _ =>
  .ok (some (List.replicate 11 (gItem 0)))

/-- A Google backend that always returns full pages of 10 items. -/
def fullGoogleBackend : Nat → FetchOutcome GoogleSearchItem := fun _ =>
  .ok (some (List.replicate 10 (gItem 0)))

/-- A SerpAPI backend that always returns full pages of 10 items. -/
def fullSerpBackend : Nat → FetchOutcome SerpApiSearchItem := fun _ =>
  .ok (some (List.replicate 10 (sItem 0)))

/-- Google backend succeeding with full pages at cursors 1 and 11 and failing
at every other cursor (in particular at cursor 21, the third fetch). -/
def failAt3GoogleBackend : Nat → FetchOutcome GoogleSearchItem := fun s =>
  if s = 1 then .ok (some (gPage 0 10))
  else if s = 11 then .ok (some (gPage 10 10))
  else .fail

/-- SerpAPI backend succeeding with full pages 0 and 1 and failing at every
later page (in particular at page 2, the third fetch). -/
def failAt3SerpBackend : Nat → FetchOutcome SerpApiSearchItem := fun page =>
  if page = 0 then .ok (some (sPage 0 10))
  else if page = 1 then .ok (some (sPage 10 10))
  else .fail

/-! ## Concrete profiles used by the validity-threshold claims -/

/-- A well-formed profile whose confidence score is exactly 20. -/
def twentyProfile : LinkedInProfile :=
  { name := "Jane Doe", title := "Cto", company := "Acme",
    linkedin_url := "https://www.linkedin.com/in/jane-doe", snippet := "",
    confidence_score := 20, location := none,
    sources := ["Google Custom Search"] }

/-- The same profile with confidence score 19.99. -/
def nearTwentyProfile : LinkedInProfile :=
  { twentyProfile with confidence_score := (1999 : ℚ) / 100 }

/-- A profile with a one-character name and a high confidence score. -/
def oneCharNameProfile : LinkedInProfile :=
  { name := "J", title := "Cto", company := "Acme",
    linkedin_url := "https://www.linkedin.com/in/j-x", snippet := "",
    confidence_score := 50, location := none,
    sources := ["Google Custom Search"] }

/-! ## Helper lemmas -/

/-- Unfolding of the tail worker of `String.intercalate` at separator `" "`. -/
theorem string_intercalate_go_eq (xs : List String) :
    ∀ acc, String.intercalate.go acc " " xs = acc ++ joinTail xs := by
  induction xs with
  | nil => intro acc; simp [String.intercalate.go, joinTail]
  | cons x xs ih =>
    intro acc
    simp [String.intercalate.go, joinTail, ih, String.append_assoc]

/-- `joinTail` distributes over list append. -/
theorem joinTail_append (xs ys : List String) :
    joinTail (xs ++ ys) = joinTail xs ++ joinTail ys := by
  induction xs with
  | nil => simp [joinTail]
  | cons x xs ih => simp [joinTail, ih, String.append_assoc]

/-- A sector/type clause whose lookup does not hit the prototype chain is the
pure clause over the total term function. -/
theorem optClauseE_safe (tbl : List (String × List String))
    (f : String → Except String (List String)) (g : String → List String)
    (o : Option String)
    (hsafe : lookupSafe tbl o = true)
    (hfg : ∀ s, tableLookup tbl (lowerStr s) ≠ .inherited → f s = .ok (g s)) :
    optClauseE f o = .ok (optClause (fun s => "(" ++ orJoin (g s) ++ ")") o) := by
  cases o with
  | none => rfl
  | some s =>
    have hs : tableLookup tbl (lowerStr s) ≠ .inherited := by
      simpa [lookupSafe] using hsafe
    simp only [optClauseE, optClause]
    split_ifs with h0
    · rfl
    · rw [hfg s hs]

/-- Under prototype-chain-safe sector and type filters, query-part
construction does not throw and produces the pure part list. -/
theorem searchQueryParts_safe (fl : SearchFilters)
    (hs : lookupSafe sectorKeywordsTable fl.companySector = true)
    (ht : lookupSafe typeKeywordsTable fl.companyType = true) :
    searchQueryParts fl = .ok (searchQueryPartsPure fl) := by
  have hsec := optClauseE_safe sectorKeywordsTable sectorTerms sectorTermsTotal
    fl.companySector hs (by
      intro s hns
      simp only [sectorTerms, sectorTermsTotal]
      cases htl : tableLookup sectorKeywordsTable (lowerStr s) with
      | ownArray terms => rfl
      | inherited => exact absurd htl hns
      | absent => rfl)
  have htyp := optClauseE_safe typeKeywordsTable typeTerms typeTermsTotal
    fl.companyType ht (by
      intro t hnt
      simp only [typeTerms, typeTermsTotal]
      cases htl : tableLookup typeKeywordsTable (lowerStr t) with
      | ownArray terms => rfl
      | inherited => exact absurd htl hnt
      | absent => rfl)
  simp only [searchQueryParts, hsec, htyp, searchQueryPartsPure]

/-- The primary confidence score is non-negative. -/
theorem primary_confidence_nonneg (jt c ctx sn : String) :
    0 ≤ Primary.calculateConfidence jt c ctx sn := by
  unfold Primary.calculateConfidence
  refine le_min ?_ (by norm_num)
  split_ifs <;> norm_num

/-- The primary confidence score is at most 100. -/
theorem primary_confidence_le (jt c ctx sn : String) :
    Primary.calculateConfidence jt c ctx sn ≤ 100 := by
  unfold Primary.calculateConfidence
  exact min_le_right _ _

/-- The alternate confidence score is non-negative. -/
theorem alt_confidence_nonneg (jt c ctx sn : String) :
    0 ≤ Alt.calculateConfidence jt c ctx sn := by
  unfold Alt.calculateConfidence
  exact le_max_left _ _

/-- The alternate confidence score is at most 100. -/
theorem alt_confidence_le (jt c ctx sn : String) :
    Alt.calculateConfidence jt c ctx sn ≤ 100 := by
  unfold Alt.calculateConfidence
  exact max_le (by norm_num) (min_le_left _ _)

/-- Every profile built by `parseSearchItem` carries the alternate confidence
score of its extracted fields and the fixed sources label. -/
theorem alt_parse_fields (item : GoogleSearchItem) (ctx : String)
    (p : LinkedInProfile) (h : Alt.parseSearchItem item ctx = some p) :
    p.linkedin_url = item.link ∧ p.sources = ["Google Custom Search"] ∧
    p.confidence_score = Alt.calculateConfidence
      (extractTitleAndCompany item.title item.snippet).fst
      (extractTitleAndCompany item.title item.snippet).snd ctx item.snippet := by
  unfold Alt.parseSearchItem at h
  split at h
  · obtain rfl : _ = p := Option.some.inj h
    exact ⟨rfl, rfl, rfl⟩
  · exact absurd h (by simp)

/-- Profiles surviving `extractStep` come from `parseSearchItem`. -/
theorem alt_extractStep_eq_some (ctx : String) (item : GoogleSearchItem)
    (p : LinkedInProfile) (h : Alt.extractStep ctx item = some p) :
    Alt.parseSearchItem item ctx = some p := by
  unfold Alt.extractStep at h
  split at h
  · split at h
    · exact (Option.some.inj h) ▸ (by assumption)
    · exact absurd h (by simp)
  · exact absurd h (by simp)

/-- The Google pagination loop performs at most one fetch per fuel unit. -/
theorem google_loop_count_le (gb : Nat → FetchOutcome GoogleSearchItem) :
    ∀ fuel s acc n,
      (GoogleService.executeSearchAllPagesLoop gb fuel s acc n).2 ≤ n + fuel := by
  intro fuel
  induction fuel with
  | zero =>
    intro s acc n
    simp [GoogleService.executeSearchAllPagesLoop]
  | succ f ih =>
    intro s acc n
    simp only [GoogleService.executeSearchAllPagesLoop]
    cases hgb : gb s with
    | fail => dsimp only; omega
    | ok o =>
      cases o with
      | none => dsimp only; omega
      | some items =>
        dsimp only
        split_ifs
        · dsimp only; omega
        · dsimp only; omega
        · dsimp only; omega
        · exact le_trans (ih _ _ _) (by omega)

/-- The SerpAPI pagination loop performs at most one fetch per remaining
iteration. -/
theorem serp_loop_count_le (sb : Nat → FetchOutcome SerpApiSearchItem) :
    ∀ remaining page acc n,
      (SerpApiService.executeSearchAllPagesLoop sb remaining page acc n).2
        ≤ n + remaining := by
  intro remaining
  induction remaining with
  | zero =>
    intro page acc n
    simp [SerpApiService.executeSearchAllPagesLoop]
  | succ r ih =>
    intro page acc n
    simp only [SerpApiService.executeSearchAllPagesLoop]
    cases hsb : sb page with
    | fail => dsimp only; omega
    | ok o =>
      cases o with
      | none => dsimp only; omega
      | some results =>
        dsimp only
        split_ifs
        · dsimp only; omega
        · exact le_trans (ih _ _ _) (by omega)

/-- When every backend page carries at most 10 items, the Google loop
accumulates at most 10 items per fuel unit. -/
theorem google_loop_len_le (gb : Nat → FetchOutcome GoogleSearchItem)
    (hpg : ∀ s, (gb s).pageLen ≤ 10) :
    ∀ fuel s acc n,
      (GoogleService.executeSearchAllPagesLoop gb fuel s acc n).1.length
        ≤ acc.length + 10 * fuel := by
  intro fuel
  induction fuel with
  | zero =>
    intro s acc n
    simp [GoogleService.executeSearchAllPagesLoop]
  | succ f ih =>
    intro s acc n
    have hs : (gb s).pageLen ≤ 10 := hpg s
    simp only [GoogleService.executeSearchAllPagesLoop]
    cases hgb : gb s with
    | fail => dsimp only; omega
    | ok o =>
      cases o with
      | none => dsimp only; omega
      | some items =>
        rw [hgb] at hs
        simp only [FetchOutcome.pageLen] at hs
        dsimp only
        split_ifs
        · dsimp only; omega
        · dsimp only; simp only [List.length_append]; omega
        · dsimp only; simp only [List.length_append]; omega
        · refine le_trans (ih (s + 10) (acc ++ items) (n + 1)) ?_
          simp only [List.length_append]
          omega

/-- When every backend page carries at most 10 items, the SerpAPI loop
accumulates at most 10 items per remaining iteration. -/
theorem serp_loop_len_le (sb : Nat → FetchOutcome SerpApiSearchItem)
    (hpg : ∀ page, (sb page).pageLen ≤ 10) :
    ∀ remaining page acc n,
      (SerpApiService.executeSearchAllPagesLoop sb remaining page acc n).1.length
        ≤ acc.length + 10 * remaining := by
  intro remaining
  induction remaining with
  | zero =>
    intro page acc n
    simp [SerpApiService.executeSearchAllPagesLoop]
  | succ r ih =>
    intro page acc n
    have hs : (sb page).pageLen ≤ 10 := hpg page
    simp only [SerpApiService.executeSearchAllPagesLoop]
    cases hsb : sb page with
    | fail => dsimp only; omega
    | ok o =>
      cases o with
      | none => dsimp only; omega
      | some results =>
        rw [hsb] at hs
        simp only [FetchOutcome.pageLen] at hs
        dsimp only
        split_ifs
        · dsimp only; omega
        · refine le_trans (ih (page + 1) (acc ++ results) (n + 1)) ?_
          simp only [List.length_append]
          omega

/-- The iteration bound of the embedded Google loop is irrelevant as long as
it covers the number of fetches the cursor arithmetic allows: from cursor `s`
the loop stops after at most `(100 - s) / 10 + 1` fetches, so any two
sufficient bounds produce the same result.  With `s = 1` the bound is 10
— the value used by `executeSearchAllPages` — so the embedding computes the
exact result of the source's unbounded `while` loop. -/
theorem google_loop_fuel_irrelevant (gb : Nat → FetchOutcome GoogleSearchItem) :
    ∀ f g s acc n, (100 - s) / 10 + 1 ≤ f → (100 - s) / 10 + 1 ≤ g →
      GoogleService.executeSearchAllPagesLoop gb f s acc n
        = GoogleService.executeSearchAllPagesLoop gb g s acc n := by
  intro f
  induction f with
  | zero => intro g s acc n hf hg; omega
  | succ f ih =>
    intro g s acc n hf hg
    cases g with
    | zero => omega
    | succ g =>
      simp only [GoogleService.executeSearchAllPagesLoop]
      cases hgb : gb s with
      | fail => rfl
      | ok o =>
        cases o with
        | none => rfl
        | some items =>
          dsimp only
          split_ifs with h1 h2 h3
          · rfl
          · rfl
          · rfl
          · exact ih g (s + 10) (acc ++ items) (n + 1) (by omega) (by omega)

/-- Running the Google loop against `k` full pages at the cursors the loop
visits, followed by a failing fetch: the loop returns the accumulated pages
and performs `k + 1` fetches.  The index `m` counts the pages still to be
consumed, so `m = k` describes the initial call. -/
theorem google_loop_pages_then_fail (gb : Nat → FetchOutcome GoogleSearchItem)
    (pages : Nat → List GoogleSearchItem) (k : Nat) (hk : k ≤ 9)
    (hok : ∀ i, i < k → gb (1 + 10 * i) = .ok (some (pages i)) ∧ (pages i).length = 10)
    (hfail : gb (1 + 10 * k) = .fail) :
    ∀ m, m ≤ k → ∀ acc n,
      GoogleService.executeSearchAllPagesLoop gb (10 - (k - m)) (1 + 10 * (k - m)) acc n
        = (acc ++ ((List.range' (k - m) m).map pages).flatten, n + m + 1) := by
  intro m
  induction m with
  | zero =>
    intro _ acc n
    obtain ⟨f, hf⟩ : ∃ f, 10 - (k - 0) = f + 1 := ⟨9 - k, by omega⟩
    rw [hf]
    simp only [Nat.sub_zero]
    simp [GoogleService.executeSearchAllPagesLoop, hfail]
  | succ m ih =>
    intro hm acc n
    obtain ⟨hj1, hj2⟩ := hok (k - (m + 1)) (by omega)
    obtain ⟨f, hf⟩ : ∃ f, 10 - (k - (m + 1)) = f + 1 := ⟨9 - (k - (m + 1)), by omega⟩
    rw [hf]
    simp only [GoogleService.executeSearchAllPagesLoop, hj1, hj2]
    rw [if_neg (by omega), if_neg (by omega), if_neg (by omega)]
    rw [show f = 10 - (k - m) from by omega,
      show 1 + 10 * (k - (m + 1)) + 10 = 1 + 10 * (k - m) from by omega]
    rw [ih (by omega) (acc ++ pages (k - (m + 1))) (n + 1)]
    refine congrArg₂ Prod.mk ?_ (by omega)
    rw [show (List.range' (k - (m + 1)) (m + 1)) = (k - (m + 1)) :: List.range' (k - m) m from ?_]
    · simp [List.append_assoc]
    · rw [List.range'_succ, show k - (m + 1) + 1 = k - m from by omega]

/-- Running the SerpAPI loop against `k` non-empty pages followed by a failing
fetch: the loop returns the accumulated pages and performs `k + 1` fetches. -/
theorem serp_loop_pages_then_fail (sb : Nat → FetchOutcome SerpApiSearchItem)
    (pages : Nat → List SerpApiSearchItem) (k : Nat) (hk : k ≤ 9)
    (hok : ∀ i, i < k → sb i = .ok (some (pages i)) ∧ pages i ≠ [])
    (hfail : sb k = .fail) :
    ∀ m, m ≤ k → ∀ acc n,
      SerpApiService.executeSearchAllPagesLoop sb (10 - (k - m)) (k - m) acc n
        = (acc ++ ((List.range' (k - m) m).map pages).flatten, n + m + 1) := by
  intro m
  induction m with
  | zero =>
    intro _ acc n
    obtain ⟨f, hf⟩ : ∃ f, 10 - (k - 0) = f + 1 := ⟨9 - k, by omega⟩
    rw [hf]
    simp only [Nat.sub_zero]
    simp [SerpApiService.executeSearchAllPagesLoop, hfail]
  | succ m ih =>
    intro hm acc n
    obtain ⟨hj1, hj2⟩ := hok (k - (m + 1)) (by omega)
    have hj2' : (pages (k - (m + 1))).length ≠ 0 := by
      simpa [List.length_eq_zero] using hj2
    obtain ⟨f, hf⟩ : ∃ f, 10 - (k - (m + 1)) = f + 1 := ⟨9 - (k - (m + 1)), by omega⟩
    rw [hf]
    simp only [SerpApiService.executeSearchAllPagesLoop, hj1]
    rw [if_neg hj2']
    rw [show f = 10 - (k - m) from by omega,
      show k - (m + 1) + 1 = k - m from by omega]
    rw [ih (by omega) (acc ++ pages (k - (m + 1))) (n + 1)]
    refine congrArg₂ Prod.mk ?_ (by omega)
    rw [show (List.range' (k - (m + 1)) (m + 1)) = (k - (m + 1)) :: List.range' (k - m) m from ?_]
    · simp [List.append_assoc]
    · rw [List.range'_succ, show k - (m + 1) + 1 = k - m from by omega]

/-! ## Claim theorems -/

/-- C1: for every raw result item and every search-context string, the
confidence score computed by either scoring strategy — the primary formula of
`index.ts` (+40 title relevance, +30/+20 context match, +20 completeness,
+10 long snippet) and the alternate formula of the `part_004` extractor
(+30 base title, +40 CTO match, +20 company, +2 per context word, −20 per
false-positive marker) — lies in [0, 100] inclusive; in particular every
profile assembled by the alternate parser carries a score in [0, 100]. -/
theorem claim1_confidence_score_bounds :
    (∀ jobTitle company searchContext snippet : String,
        0 ≤ Primary.calculateConfidence jobTitle company searchContext snippet ∧
        Primary.calculateConfidence jobTitle company searchContext snippet ≤ 100) ∧
    (∀ jobTitle company searchContext snippet : String,
        0 ≤ Alt.calculateConfidence jobTitle company searchContext snippet ∧
        Alt.calculateConfidence jobTitle company searchContext snippet ≤ 100) ∧
    (∀ (item : GoogleSearchItem) (searchContext : String),
        (Alt.parseSearchItem item searchContext).all
          (fun p => decide (0 ≤ p.confidence_score) &&
                    decide (p.confidence_score ≤ 100)) = true) := by
  refine ⟨fun jt c ctx sn => ⟨primary_confidence_nonneg jt c ctx sn,
    primary_confidence_le jt c ctx sn⟩,
    fun jt c ctx sn => ⟨alt_confidence_nonneg jt c ctx sn,
      alt_confidence_le jt c ctx sn⟩, ?_⟩
  intro item ctx
  cases h : Alt.parseSearchItem item ctx with
  | none => rfl
  | some p =>
    obtain ⟨-, -, hscore⟩ := alt_parse_fields item ctx p h
    simp [Option.all, hscore, alt_confidence_nonneg, alt_confidence_le]

/-- C2 (corrected): whenever the sector and type filters do not lower-case to
an `Object.prototype` property name, the query produced by `searchCtoProfiles`
is its clauses joined with single spaces in the fixed order namespace, title
disjunction, region, sector disjunction, type disjunction, exclusions; every
absent (or empty, hence falsy) optional filter contributes no clause, and each
optional filter influences only its own segment of the output, each segment
being a function of that filter alone.  Query construction is not
exception-free: a sector or type that lower-cases to a prototype-chain key
throws a `TypeError` (see the counterexample). -/
theorem claim2_query_clause_structure (fl : SearchFilters)
    (hs : lookupSafe sectorKeywordsTable fl.companySector = true)
    (ht : lookupSafe typeKeywordsTable fl.companyType = true) :
    searchCtoProfilesQuery fl = .ok
      ("site:linkedin.com/in/" ++ " " ++ titleSegment fl.additionalTitles
        ++ regionSegment fl.region ++ sectorSegment fl.companySector
        ++ typeSegment fl.companyType ++ exclusionSegment) := by
  have hp := searchQueryParts_safe fl hs ht
  simp only [searchCtoProfilesQuery, hp]
  refine congrArg Except.ok ?_
  rcases fl with ⟨reg, sec, typ, add⟩
  simp only [searchQueryPartsPure, String.intercalate, List.cons_append,
    List.nil_append]
  rw [string_intercalate_go_eq]
  cases reg <;> cases sec <;> cases typ <;>
    simp only [optClause, regionSegment, sectorSegment, typeSegment,
      titleSegment, exclusionSegment] <;>
    (try split_ifs) <;>
    simp only [joinTail, joinTail_append, String.append_assoc,
      String.append_empty, String.empty_append]

/-- C2 counterexample: query construction does throw — a `companySector` of
`"Constructor"` lower-cases to the `Object.prototype` key `constructor`, the
bracket lookup returns the inherited truthy value instead of `undefined`, and
`.map` on it throws a `TypeError`, so no query string is produced. -/
theorem claim2_constructor_counterexample :
    searchCtoProfilesQuery
      { region := none, companySector := some "Constructor",
        companyType := none, additionalTitles := none }
      = .error "TypeError: sectorTerms.map is not a function" := rfl

/-- C2 witness: the clause decomposition instantiated at concrete
prototype-chain-safe filters. -/
theorem claim2_witness :
    searchCtoProfilesQuery
      { region := some "San Francisco", companySector := some "software",
        companyType := some "startup", additionalTitles := none }
      = .ok
      ("site:linkedin.com/in/" ++ " " ++ titleSegment none
        ++ regionSegment (some "San Francisco") ++ sectorSegment (some "software")
        ++ typeSegment (some "startup") ++ exclusionSegment) :=
  claim2_query_clause_structure
    { region := some "San Francisco", companySector := some "software",
      companyType := some "startup", additionalTitles := none }
    (by decide) (by decide)

/-- C6 (corrected): in bounded mode, a failure of the single page fetch is
propagated by the Google variant as a thrown error, distinguishable from every
successful fetch (in particular from a zero-result success); the SerpAPI
bounded variant instead swallows the failure and returns an empty
`organic_results` list, which is indistinguishable from a zero-result
success. -/
theorem claim6_bounded_mode_failure :
    GoogleService.executeSearch .fail = .error "Search API request failed" ∧
    (∀ items, GoogleService.executeSearch (.ok items) ≠
        GoogleService.executeSearch .fail) ∧
    SerpApiService.executeSearch .fail = { organic_results := some [] } ∧
    SerpApiService.executeSearch .fail =
      SerpApiService.executeSearch (.ok (some [])) := by
  refine ⟨rfl, ?_, rfl, rfl⟩
  intro items h
  exact Except.noConfusion h

/-- C6 counterexample: on the SerpAPI bounded path, the output for a failed
fetch coincides with the output for a successful fetch carrying zero results,
so the failure is not distinguishable from "zero results" there, contrary to
the claim. -/
theorem claim6_serpapi_counterexample :
    SerpApiService.executeSearch .fail =
      SerpApiService.executeSearch (.ok (some [])) ∧
    SerpApiService.executeSearch (.ok (some [])) =
      { organic_results := some [] } :=
  ⟨rfl, rfl⟩

/-- C8 (corrected): the primary validity filter of `index.ts` retains a
profile exactly when its confidence score is at least 20, its name and URL are
non-empty and the name has at least 2 characters — so a score of exactly 20 is
retained and 19.99 is dropped; the alternate filter of `part_004` requires
only a non-empty name, a non-empty URL and a score strictly above 10, with no
2-character minimum on the name. -/
theorem claim8_validity_thresholds :
    (∀ p : LinkedInProfile, Primary.validateProfile p = true ↔
        20 ≤ p.confidence_score ∧ p.name ≠ "" ∧ p.linkedin_url ≠ "" ∧
          2 ≤ jsLength p.name) ∧
    (∀ p : LinkedInProfile, Alt.validateProfile p = true ↔
        0 < jsLength p.name ∧ 0 < jsLength p.linkedin_url ∧
          10 < p.confidence_score) ∧
    Primary.validateProfile twentyProfile = true ∧
    Primary.validateProfile nearTwentyProfile = false := by
  refine ⟨?_, ?_, ?_, ?_⟩
  · intro p
    simp [Primary.validateProfile, Bool.and_eq_true, decide_eq_true_eq,
      bne_iff_ne, and_assoc]
  · intro p
    simp [Alt.validateProfile, Bool.and_eq_true, decide_eq_true_eq, and_assoc]
  · simp [Primary.validateProfile, twentyProfile, jsLength]
  · simp [Primary.validateProfile, nearTwentyProfile, twentyProfile, jsLength]
    norm_num

/-- C8 counterexample: the alternate validity filter retains a profile whose
name has only one character, refuting the claim that a profile is retained
only if its name has at least 2 characters. -/
theorem claim8_one_char_name_counterexample :
    Alt.validateProfile oneCharNameProfile = true ∧
    jsLength oneCharNameProfile.name = 1 := by
  constructor
  · simp [Alt.validateProfile, oneCharNameProfile, jsLength]
    norm_num
  · rfl

/-- C8 witness: the primary characterisation instantiated at the concrete
profile with score exactly 20. -/
theorem claim8_witness :
    20 ≤ twentyProfile.confidence_score ∧ twentyProfile.name ≠ "" ∧
      twentyProfile.linkedin_url ≠ "" ∧ 2 ≤ jsLength twentyProfile.name :=
  (claim8_validity_thresholds.1 twentyProfile).mp
    claim8_validity_thresholds.2.2.1

/-- C9 (corrected): the sector and company-type lookups lower-case the input
before consulting the tables, so any casing of each of the eleven
all-lower-case keys — software, fintech, healthcare, e-commerce,
cybersecurity, blockchain, gaming; startup, enterprise, unicorn, public —
maps to that key's synonym set, emitted as a quoted OR-disjunction clause;
the keys stored with upper-case letters (`AI/ML`, `IoT`, `SME`) can never be
hit, so every casing of them falls back to the literal input as a single-term
set. -/
theorem claim9_table_lookup_casing :
    (∀ s, lowerStr s = "software" →
        sectorTerms s = .ok ["software", "SaaS", "tech", "technology"]) ∧
    (∀ s, lowerStr s = "fintech" →
        sectorTerms s = .ok ["fintech", "financial technology", "finance", "banking"]) ∧
    (∀ s, lowerStr s = "healthcare" →
        sectorTerms s = .ok ["healthcare", "medical", "health tech", "biotech"]) ∧
    (∀ s, lowerStr s = "e-commerce" →
        sectorTerms s = .ok ["e-commerce", "ecommerce", "retail", "online"]) ∧
    (∀ s, lowerStr s = "cybersecurity" →
        sectorTerms s = .ok ["cybersecurity", "security", "infosec"]) ∧
    (∀ s, lowerStr s = "blockchain" →
        sectorTerms s = .ok ["blockchain", "crypto", "web3"]) ∧
    (∀ s, lowerStr s = "gaming" →
        sectorTerms s = .ok ["gaming", "game", "entertainment"]) ∧
    (∀ s, lowerStr s = "ai/ml" → sectorTerms s = .ok [s]) ∧
    (∀ s, lowerStr s = "iot" → sectorTerms s = .ok [s]) ∧
    (∀ t, lowerStr t = "startup" →
        typeTerms t = .ok ["startup", "early stage", "seed"]) ∧
    (∀ t, lowerStr t = "enterprise" →
        typeTerms t = .ok ["enterprise", "Fortune", "large company"]) ∧
    (∀ t, lowerStr t = "unicorn" →
        typeTerms t = .ok ["unicorn", "billion", "$1B"]) ∧
    (∀ t, lowerStr t = "public" →
        typeTerms t = .ok ["public company", "NYSE", "NASDAQ", "publicly traded"]) ∧
    (∀ t, lowerStr t = "sme" → typeTerms t = .ok [t]) ∧
    optClauseE sectorTerms (some "FinTech") =
      .ok ["(\"fintech\" OR \"financial technology\" OR \"finance\" OR \"banking\")"] ∧
    optClauseE typeTerms (some "UniCorn") =
      .ok ["(\"unicorn\" OR \"billion\" OR \"$1B\")"] := by
  refine ⟨?_, ?_, ?_, ?_, ?_, ?_, ?_, ?_, ?_, ?_, ?_, ?_, ?_, ?_,
    rfl, rfl⟩ <;>
    · intro s h
      simp only [sectorTerms, typeTerms]
      rw [h]
      rfl

/-- C9 counterexample: no casing of the documented key `AI/ML` reaches its
synonym set — the exact key itself falls back to the literal single-term
set, refuting case-insensitive lookup for that key. -/
theorem claim9_aiml_counterexample :
    sectorTerms "AI/ML" = .ok ["AI/ML"] ∧
    sectorTerms "AI/ML" ≠ .ok ["AI", "ML", "artificial intelligence", "machine learning"] := by
  refine ⟨rfl, fun h => ?_⟩
  rw [show sectorTerms "AI/ML" = .ok ["AI/ML"] from rfl] at h
  exact absurd (Except.ok.inj h) (by decide)

/-- C9 witness: the lookup characterisations instantiated at mixed-casing
inputs, one per enumerated key. -/
theorem claim9_witness :
    sectorTerms "SoFtWaRe" = .ok ["software", "SaaS", "tech", "technology"] ∧
    sectorTerms "FINTECH" = .ok ["fintech", "financial technology", "finance", "banking"] ∧
    sectorTerms "HealthCare" = .ok ["healthcare", "medical", "health tech", "biotech"] ∧
    sectorTerms "E-Commerce" = .ok ["e-commerce", "ecommerce", "retail", "online"] ∧
    sectorTerms "CyberSecurity" = .ok ["cybersecurity", "security", "infosec"] ∧
    sectorTerms "BlockChain" = .ok ["blockchain", "crypto", "web3"] ∧
    sectorTerms "GaMiNg" = .ok ["gaming", "game", "entertainment"] ∧
    sectorTerms "Ai/Ml" = .ok ["Ai/Ml"] ∧
    sectorTerms "IoT" = .ok ["IoT"] ∧
    typeTerms "StartUp" = .ok ["startup", "early stage", "seed"] ∧
    typeTerms "ENTERPRISE" = .ok ["enterprise", "Fortune", "large company"] ∧
    typeTerms "Unicorn" = .ok ["unicorn", "billion", "$1B"] ∧
    typeTerms "Public" = .ok ["public company", "NYSE", "NASDAQ", "publicly traded"] ∧
    typeTerms "SME" = .ok ["SME"] :=
  ⟨claim9_table_lookup_casing.1 "SoFtWaRe" (by decide),
   claim9_table_lookup_casing.2.1 "FINTECH" (by decide),
   claim9_table_lookup_casing.2.2.1 "HealthCare" (by decide),
   claim9_table_lookup_casing.2.2.2.1 "E-Commerce" (by decide),
   claim9_table_lookup_casing.2.2.2.2.1 "CyberSecurity" (by decide),
   claim9_table_lookup_casing.2.2.2.2.2.1 "BlockChain" (by decide),
   claim9_table_lookup_casing.2.2.2.2.2.2.1 "GaMiNg" (by decide),
   claim9_table_lookup_casing.2.2.2.2.2.2.2.1 "Ai/Ml" (by decide),
   claim9_table_lookup_casing.2.2.2.2.2.2.2.2.1 "IoT" (by decide),
   claim9_table_lookup_casing.2.2.2.2.2.2.2.2.2.1 "StartUp" (by decide),
   claim9_table_lookup_casing.2.2.2.2.2.2.2.2.2.2.1 "ENTERPRISE" (by decide),
   claim9_table_lookup_casing.2.2.2.2.2.2.2.2.2.2.2.1 "Unicorn" (by decide),
   claim9_table_lookup_casing.2.2.2.2.2.2.2.2.2.2.2.2.1 "Public" (by decide),
   claim9_table_lookup_casing.2.2.2.2.2.2.2.2.2.2.2.2.2.1 "SME" (by decide)⟩

/-- C3 (corrected): against a backend yielding successive pages of sizes
10, 10, 10, 7 and nothing afterwards, both exhaustive fetchers return exactly
the 37 accumulated items in page order; the Google variant stops after exactly
4 fetches because a short page ends its pagination, but the SerpAPI variant
performs a 5th fetch — its loop ends only on an empty page, a failure or the
10-page cap, not on a short page. -/
theorem claim3_exhaustive_termination :
    GoogleService.executeSearchAllPages demoGoogleBackend
      = ({ items := some ((List.range 37).map gItem) }, 4) ∧
    SerpApiService.executeSearchAllPages demoSerpBackend
      = ({ organic_results := some ((List.range 37).map sItem) }, 5) :=
  ⟨by decide, by decide⟩

/-- C3 counterexample: on the page-size sequence 10, 10, 10, 7 the SerpAPI
exhaustive fetcher performs 5 fetches, not the 4 the claim asserts for both
backend variants. -/
theorem claim3_serpapi_counterexample :
    (SerpApiService.executeSearchAllPages demoSerpBackend).2 = 5 ∧
    (SerpApiService.executeSearchAllPages demoSerpBackend).2 ≠ 4 :=
  ⟨by decide, by decide⟩

/-- C4 (corrected): in exhaustive mode both fetchers terminate after at most
10 page fetches for every backend behaviour; and provided every fetched page
carries at most the per-page cap of 10 items, both return at most 100 items.
(The 100-item bound needs the per-page cap: a backend answering oversized
pages drives the Google variant past 100 items, see the counterexample.) -/
theorem claim4_fetch_and_item_ceiling :
    (∀ gb, (GoogleService.executeSearchAllPages gb).2 ≤ 10) ∧
    (∀ sb, (SerpApiService.executeSearchAllPages sb).2 ≤ 10) ∧
    (∀ gb, (∀ s, (gb s).pageLen ≤ 10) →
        ((GoogleService.executeSearchAllPages gb).1.items.getD []).length ≤ 100) ∧
    (∀ sb, (∀ page, (sb page).pageLen ≤ 10) →
        ((SerpApiService.executeSearchAllPages sb).1.organic_results.getD []).length ≤ 100) := by
  refine ⟨?_, ?_, ?_, ?_⟩
  · intro gb
    have h := google_loop_count_le gb 10 1 [] 0
    simpa [GoogleService.executeSearchAllPages] using h
  · intro sb
    have h := serp_loop_count_le sb 10 0 [] 0
    simpa [SerpApiService.executeSearchAllPages] using h
  · intro gb hpg
    have h := google_loop_len_le gb hpg 10 1 [] 0
    simpa [GoogleService.executeSearchAllPages] using h
  · intro sb hpg
    have h := serp_loop_len_le sb hpg 10 0 [] 0
    simpa [SerpApiService.executeSearchAllPages] using h

/-- C4 counterexample: a backend answering 11-item pages drives the Google
exhaustive fetcher to 110 returned items, above the claimed 100-item bound for
arbitrary backend behaviour. -/
theorem claim4_ceiling_counterexample :
    ((GoogleService.executeSearchAllPages elevenItemBackend).1.items.getD []).length = 110 ∧
    100 < ((GoogleService.executeSearchAllPages elevenItemBackend).1.items.getD []).length :=
  ⟨by decide, by decide⟩

/-- C4 witness: the bounds instantiated at backends answering full pages of
10 items forever. -/
theorem claim4_witness :
    (GoogleService.executeSearchAllPages fullGoogleBackend).2 ≤ 10 ∧
    (SerpApiService.executeSearchAllPages fullSerpBackend).2 ≤ 10 ∧
    ((GoogleService.executeSearchAllPages fullGoogleBackend).1.items.getD []).length ≤ 100 ∧
    ((SerpApiService.executeSearchAllPages fullSerpBackend).1.organic_results.getD []).length ≤ 100 :=
  ⟨claim4_fetch_and_item_ceiling.1 fullGoogleBackend,
   claim4_fetch_and_item_ceiling.2.1 fullSerpBackend,
   claim4_fetch_and_item_ceiling.2.2.1 fullGoogleBackend
     (by intro s
         show (FetchOutcome.ok (some (List.replicate 10 (gItem 0)))).pageLen ≤ 10
         decide),
   claim4_fetch_and_item_ceiling.2.2.2 fullSerpBackend
     (by intro page
         show (FetchOutcome.ok (some (List.replicate 10 (sItem 0)))).pageLen ≤ 10
         decide)⟩

/-- C5: in exhaustive mode, when the fetches of the first `k` visited pages
succeed (full pages for Google, whose pagination otherwise ends early;
non-empty pages for SerpAPI) and the `(k+1)`-th fetch fails, both fetchers
return exactly the items accumulated from the first `k` pages, perform `k + 1`
fetches, and raise no exception — the embedded fetchers are total functions
returning the partial result. -/
theorem claim5_partial_failure_tolerance
    (k : Nat) (gb : Nat → FetchOutcome GoogleSearchItem)
    (sb : Nat → FetchOutcome SerpApiSearchItem)
    (gpages : Nat → List GoogleSearchItem)
    (spages : Nat → List SerpApiSearchItem)
    (hk : k ≤ 9)
    (hgok : ∀ i, i < k → gb (1 + 10 * i) = .ok (some (gpages i)) ∧ (gpages i).length = 10)
    (hgfail : gb (1 + 10 * k) = .fail)
    (hsok : ∀ i, i < k → sb i = .ok (some (spages i)) ∧ spages i ≠ [])
    (hsfail : sb k = .fail) :
    GoogleService.executeSearchAllPages gb
      = ({ items := some (((List.range k).map gpages).flatten) }, k + 1) ∧
    SerpApiService.executeSearchAllPages sb
      = ({ organic_results := some (((List.range k).map spages).flatten) }, k + 1) := by
  have hg := google_loop_pages_then_fail gb gpages k hk hgok hgfail k (le_refl k) [] 0
  have hs := serp_loop_pages_then_fail sb spages k hk hsok hsfail k (le_refl k) [] 0
  simp only [Nat.sub_self, Nat.mul_zero, Nat.add_zero, Nat.zero_add,
    List.nil_append] at hg hs
  constructor
  · simp [GoogleService.executeSearchAllPages, hg, List.range_eq_range']
  · simp [SerpApiService.executeSearchAllPages, hs, List.range_eq_range']

/-- C5 witness: both fetchers against backends succeeding with full pages for
the first two fetches and failing on the third return exactly the 20
accumulated items after 3 fetches. -/
theorem claim5_witness :
    GoogleService.executeSearchAllPages failAt3GoogleBackend
      = ({ items := some (((List.range 2).map (fun i => gPage (10 * i) 10)).flatten) }, 3) ∧
    SerpApiService.executeSearchAllPages failAt3SerpBackend
      = ({ organic_results := some (((List.range 2).map (fun i => sPage (10 * i) 10)).flatten) }, 3) :=
  claim5_partial_failure_tolerance 2 failAt3GoogleBackend failAt3SerpBackend
    (fun i => gPage (10 * i) 10) (fun i => sPage (10 * i) 10)
    (by omega) (by decide) (by decide) (by decide) (by decide)

/-- C7 (corrected): an item whose link does not pass the profile URL pattern
never yields a candidate profile; every parsed profile's URL passes the
pattern; `https://example.com/not-a-profile` fails the pattern; and an item
with link `https://www.linkedin.com/in/jane-doe` — lower-case scheme and host,
as the case-sensitive pattern requires — yields exactly one profile whatever
its title, snippet and context.  (Upper-case scheme/host variants are
rejected, see the counterexample.) -/
theorem claim7_url_gating :
    (∀ (item : GoogleSearchItem) ctx, linkedinUrlTest item.link = false →
        Alt.parseSearchItem item ctx = none) ∧
    (∀ (item : GoogleSearchItem) ctx p, Alt.parseSearchItem item ctx = some p →
        linkedinUrlTest p.linkedin_url = true) ∧
    linkedinUrlTest "https://example.com/not-a-profile" = false ∧
    (∀ title snippet ctx,
        (Alt.parseSearchItem
          { title := title, link := "https://www.linkedin.com/in/jane-doe",
            snippet := snippet } ctx).isSome = true) := by
  refine ⟨?_, ?_, by decide, ?_⟩
  · intro item ctx h
    simp [Alt.parseSearchItem, h]
  · intro item ctx p h
    obtain ⟨hurl, -, -⟩ := alt_parse_fields item ctx p h
    rw [hurl]
    by_contra hfalse
    have hnone : Alt.parseSearchItem item ctx = none := by
      simp [Alt.parseSearchItem, Bool.eq_false_iff.mpr hfalse]
    rw [hnone] at h
    exact Option.noConfusion h
  · intro title snippet ctx
    simp [Alt.parseSearchItem,
      show linkedinUrlTest "https://www.linkedin.com/in/jane-doe" = true from by decide]

/-- C7 counterexample: the URL pattern is case-sensitive, so upper-casing the
scheme of an otherwise accepted link makes the same item yield no profile,
refuting "regardless of casing variations in the scheme/host". -/
theorem claim7_casing_counterexample :
    Alt.parseSearchItem
      { title := "Jane Doe - CTO at Acme",
        link := "HTTPS://www.linkedin.com/in/jane-doe",
        snippet := "Jane Doe is the CTO at Acme" } "" = none ∧
    (Alt.parseSearchItem
      { title := "Jane Doe - CTO at Acme",
        link := "https://www.linkedin.com/in/jane-doe",
        snippet := "Jane Doe is the CTO at Acme" } "").isSome = true :=
  ⟨by decide, by decide⟩

/-- C7 witness: the gating conjuncts instantiated at concrete items. -/
theorem claim7_witness :
    Alt.parseSearchItem
      { title := "Somebody", link := "https://example.com/not-a-profile",
        snippet := "snippet" } "ctx" = none ∧
    (Alt.parseSearchItem
      { title := "Jane Doe", link := "https://www.linkedin.com/in/jane-doe",
        snippet := "" } "").isSome = true :=
  ⟨claim7_url_gating.1
      { title := "Somebody", link := "https://example.com/not-a-profile",
        snippet := "snippet" } "ctx" (by decide),
   claim7_url_gating.2.2.2 "Jane Doe" "" ""⟩

/-- C10: the two extraction entry points of the `part_004` extractor are
extensionally equal — for every list of raw (title, link, snippet) triples and
every context, `extractProfiles` on a response carrying the list in `items`
returns the same profiles as `extractProfilesFromSerpApi` on a response
carrying the same triples in `organic_results`; a response with the field
absent yields the empty list on either path; and every profile from either
path carries exactly the sources label `"Google Custom Search"`. -/
theorem claim10_extraction_paths_agree :
    (∀ (l : List (String × String × String)) ctx,
        Alt.extractProfiles
          { items := some (l.map (fun t =>
              { title := t.1, link := t.2.1, snippet := t.2.2 })) } ctx
          = Alt.extractProfilesFromSerpApi
              { organic_results := some (l.map (fun t =>
                  { title := t.1, link := t.2.1, snippet := t.2.2 })) } ctx) ∧
    (∀ ctx, Alt.extractProfiles { items := none } ctx = [] ∧
        Alt.extractProfilesFromSerpApi { organic_results := none } ctx = []) ∧
    (∀ resp ctx, (Alt.extractProfiles resp ctx).all
        (fun p => p.sources == ["Google Custom Search"]) = true) ∧
    (∀ resp ctx, (Alt.extractProfilesFromSerpApi resp ctx).all
        (fun p => p.sources == ["Google Custom Search"]) = true) := by
  have hstep : ∀ ctx (item : GoogleSearchItem) (p : LinkedInProfile),
      Alt.extractStep ctx item = some p → p.sources = ["Google Custom Search"] := by
    intro ctx item p h
    exact (alt_parse_fields item ctx p (alt_extractStep_eq_some ctx item p h)).2.1
  refine ⟨?_, fun ctx => ⟨rfl, rfl⟩, ?_, ?_⟩
  · intro l ctx
    simp only [Alt.extractProfiles, Alt.extractProfilesFromSerpApi,
      List.filterMap_map]
    rfl
  · intro resp ctx
    simp only [List.all_eq_true]
    intro p hp
    rcases resp with ⟨_ | items⟩
    · simp [Alt.extractProfiles] at hp
    · simp only [Alt.extractProfiles, List.mem_filterMap] at hp
      obtain ⟨item, -, hstep'⟩ := hp
      simpa [beq_iff_eq] using hstep ctx item p hstep'
  · intro resp ctx
    simp only [List.all_eq_true]
    intro p hp
    rcases resp with ⟨_ | items⟩
    · simp [Alt.extractProfilesFromSerpApi] at hp
    · simp only [Alt.extractProfilesFromSerpApi, List.mem_filterMap] at hp
      obtain ⟨item, -, hstep'⟩ := hp
      simpa [beq_iff_eq] using hstep ctx (Alt.convertItem item) p hstep'

end CtoFinder
